import Mathlib

/-!
Verification of the policy-enforcer agent core.

Shallow embedding of `policy_enforcer` (state, items, rules, tools, ReAct
loop) into Lean 4, together with theorems settling the specification
claims.  Python sets of strings are modelled as duplicate-free lists,
Python `str` operations used by the code are modelled at the character
level, and the single nondeterministic point (the random weather draw)
is an explicit parameter.
-/

namespace PolicyEnforcer

/-! ## Data model (`state/__init__.py`, `items.py`) -/

/-- `WeatherCondition` enum from `state/__init__.py`. -/
inductive WeatherCondition where
  | sunny
  | raining
  | snowing
  | unknown
deriving DecidableEq, Repr

/-- The `.value` string of each `WeatherCondition` member. -/
def WeatherCondition.value : WeatherCondition → String
  | .sunny => "sunny"
  | .raining => "raining"
  | .snowing => "snowing"
  | .unknown => "unknown"

/-- `Activity` enum from `state/__init__.py`. -/
inductive Activity where
  | playGames
  | goCamping
  | swimming
deriving DecidableEq, Repr

/-- The `.value` string of each `Activity` member. -/
def Activity.value : Activity → String
  | .playGames => "Play games"
  | .goCamping => "Go Camping"
  | .swimming => "Swimming"

/-- `Activity(value)` enum lookup: the member whose `.value` equals the
string, if any (`Activity("x")` raises in Python exactly when this is
`none`). -/
def activityOfValue (v : String) : Option Activity :=
  if v = Activity.playGames.value then some .playGames
  else if v = Activity.goCamping.value then some .goCamping
  else if v = Activity.swimming.value then some .swimming
  else none

/-- Python `str.lower`, modelled at the character level (all item and
activity names are ASCII). -/
def strToLower (s : String) : String := ⟨s.data.map Char.toLower⟩

/-- The `.value` strings of the `Item` enum from `items.py`, in
definition order (iteration order of `for item in Item`). -/
def itemValues : List String := ["TV", "Xbox", "Hiking Boots", "Goggles", "Sunscreen"]

/-- `ItemRequirements.get_requirements_for_activity` from `items.py`. -/
def get_requirements_for_activity (activity : String) : List String :=
  if activity = Activity.playGames.value then ["TV", "Xbox"]
  else if activity = Activity.goCamping.value then ["Hiking Boots"]
  else if activity = Activity.swimming.value then ["Goggles"]
  else []

/-- `ItemRequirements.get_missing_items` from `items.py`: the required
items whose lowercase form is not among the lowercased user items. -/
def get_missing_items (activity : String) (userItems : List String) : List String :=
  let userItemsLower := userItems.map strToLower
  (get_requirements_for_activity activity).filter
    (fun item => !(userItemsLower.contains (strToLower item)))

/-- `ItemRequirements.is_valid_item` from `items.py`. -/
def is_valid_item (itemName : String) : Bool :=
  if itemName = "" then false
  else itemValues.any (fun item => strToLower item == strToLower itemName)

/-- `ItemRequirements.normalize_item_name` from `items.py`: the first
registered item matching case-insensitively, else the input unchanged. -/
def normalize_item_name (itemName : String) : String :=
  if itemName = "" then itemName
  else
    match itemValues.find? (fun item => strToLower item == strToLower itemName) with
    | some item => item
    | none => itemName

/-- `AgentState` from `state/__init__.py`.  The Python `set` inventory is
modelled as a duplicate-free list (insertion order); membership and the
rule-level comparisons only ever use list membership. -/
structure AgentState where
  inventory : List String := []
  weather : WeatherCondition := .unknown
  weather_checked : Bool := false
  chosen_activity : Option Activity := none
  shopping_history : List String := []
deriving DecidableEq, Repr

/-- The default-constructed `AgentState()` (also the result of `reset_state`). -/
def initialState : AgentState := {}

/-- `AgentState.add_to_inventory`: normalize, add to the inventory set,
and always append to the shopping history. -/
def AgentState.add_to_inventory (s : AgentState) (item : String) : AgentState :=
  let normalized := normalize_item_name item
  { s with
    inventory :=
      if s.inventory.contains normalized then s.inventory
      else s.inventory ++ [normalized]
    shopping_history := s.shopping_history ++ [normalized] }

/-- `AgentState.has_item`: `item in self.inventory` (exact membership in
the Python set, no normalization). -/
def AgentState.has_item (s : AgentState) (item : String) : Bool :=
  s.inventory.contains item

/-- `AgentState.has_items`: all of the given items are present. -/
def AgentState.has_items (s : AgentState) (items : List String) : Bool :=
  items.all (fun item => s.has_item item)

/-- `AgentState.set_weather`: sets `weather` and forces `weather_checked = True`. -/
def AgentState.set_weather (s : AgentState) (w : WeatherCondition) : AgentState :=
  { s with weather := w, weather_checked := true }

/-- `AgentState.set_activity`: sets `chosen_activity`. -/
def AgentState.set_activity (s : AgentState) (a : Activity) : AgentState :=
  { s with chosen_activity := some a }

/-! ## Rule engine (`rules/__init__.py`) -/

/-- `RuleResult` pydantic model. -/
structure RuleResult where
  allowed : Bool
  reason : Option String := none
deriving DecidableEq, Repr

/-- `PlayGamesRule.check`. -/
def playGamesRule (s : AgentState) (activity : String) : RuleResult :=
  if activity ≠ Activity.playGames.value then { allowed := true }
  else
    let missing := get_missing_items activity s.inventory
    if missing.isEmpty then { allowed := true }
    else
      { allowed := false
        reason := some ("Cannot play games. Missing required items: "
          ++ String.intercalate ", " missing) }

/-- `CampingEquipmentRule.check`. -/
def campingEquipmentRule (s : AgentState) (activity : String) : RuleResult :=
  if activity ≠ Activity.goCamping.value then { allowed := true }
  else
    let missing := get_missing_items activity s.inventory
    if missing.isEmpty then { allowed := true }
    else
      { allowed := false
        reason := some "Cannot go camping. Missing required item: Hiking Boots" }

/-- `SwimmingEquipmentRule.check`. -/
def swimmingEquipmentRule (s : AgentState) (activity : String) : RuleResult :=
  if activity ≠ Activity.swimming.value then { allowed := true }
  else
    let missing := get_missing_items activity s.inventory
    if missing.isEmpty then { allowed := true }
    else
      { allowed := false
        reason := some "Cannot go swimming. Missing required item: Goggles" }

/-- `CampingWeatherRule.check`. -/
def campingWeatherRule (s : AgentState) (activity : String) : RuleResult :=
  if activity ≠ Activity.goCamping.value then { allowed := true }
  else if s.weather = .raining then
    { allowed := false
      reason := some "Cannot go camping because it\x27s raining" }
  else { allowed := true }

/-- `SwimmingWeatherRule.check`. -/
def swimmingWeatherRule (s : AgentState) (activity : String) : RuleResult :=
  if activity ≠ Activity.swimming.value then { allowed := true }
  else if s.weather = .snowing then
    { allowed := false
      reason := some "Cannot go swimming because it\x27s snowing" }
  else { allowed := true }

/-- `UnknownWeatherRule.check`. -/
def unknownWeatherRule (s : AgentState) (activity : String) : RuleResult :=
  if s.weather ≠ .unknown then { allowed := true }
  else if activity = Activity.playGames.value then { allowed := true }
  else
    { allowed := false
      reason := some "Weather is unknown. You can only play games until weather is checked" }

/-- `WeatherCheckRule.check`. -/
def weatherCheckRule (s : AgentState) (tool_name : String) : RuleResult :=
  if tool_name ≠ "check_weather" then { allowed := true }
  else if s.weather_checked = true ∧ s.weather ≠ .unknown then
    { allowed := false
      reason := some "Weather has already been checked and is known. Cannot check weather again" }
  else { allowed := true }

/-- `RuleEngine.check_activity_rules`: the six activity rules in their
registration order, returning the first denial, else allow. -/
def check_activity_rules (s : AgentState) (activity : String) : RuleResult :=
  let r1 := playGamesRule s activity
  if !r1.allowed then r1 else
  let r2 := campingEquipmentRule s activity
  if !r2.allowed then r2 else
  let r3 := swimmingEquipmentRule s activity
  if !r3.allowed then r3 else
  let r4 := campingWeatherRule s activity
  if !r4.allowed then r4 else
  let r5 := swimmingWeatherRule s activity
  if !r5.allowed then r5 else
  let r6 := unknownWeatherRule s activity
  if !r6.allowed then r6 else
  { allowed := true }

/-- `RuleEngine.check_tool_rules`: only the weather-check rule applies. -/
def check_tool_rules (s : AgentState) (tool_name : String) : RuleResult :=
  let r := weatherCheckRule s tool_name
  if !r.allowed then r else { allowed := true }

/-! ## Tools (`tools/__init__.py` and `sk_tools.py`)

Every tool call returns a single message string plus the successor state.
The messages are carried in a tagged form whose `render` reproduces the
exact source strings (`"❌ Rule violation: " + reason`,
`"❌ " + validation error`, or the success text verbatim): the tag records
which of the three return categories of the source produced the string. -/

/-- The three categories of tool return message in the source. -/
inductive ToolMsg where
  | ruleViolation (reason : String)
  | invalidInput (text : String)
  | success (text : String)
deriving DecidableEq, Repr

/-- Renders a tagged message to the exact string the Python tool returns. -/
def ToolMsg.render : ToolMsg → String
  | .ruleViolation reason => "❌ Rule violation: " ++ reason
  | .invalidInput text => "❌ " ++ text
  | .success text => text

/-- `True` exactly for the rule-violation and invalid-input messages. -/
def ToolMsg.isError : ToolMsg → Bool
  | .success _ => false
  | _ => true

/-- `PolicyEnforcedTool.check_tool_rules` / `PolicyEnforcedPlugin.check_tool_rules`:
the engine's denial reason, or `none` when allowed. -/
def plugin_check_tool_rules (s : AgentState) (tool_name : String) : Option String :=
  let result := check_tool_rules s tool_name
  if !result.allowed then result.reason else none

/-- `PolicyEnforcedPlugin.check_activity_rules`: the engine's denial
reason, or `none` when allowed. -/
def plugin_check_activity_rules (s : AgentState) (activity : String) : Option String :=
  let result := check_activity_rules s activity
  if !result.allowed then result.reason else none

/-- Insertion into a ≤-sorted list of strings. -/
def insertSorted (a : String) : List String → List String
  | [] => [a]
  | b :: bs => if a ≤ b then a :: b :: bs else b :: insertSorted a bs

/-- Python `sorted` on strings (lexicographic by code point). -/
def sortStrings (l : List String) : List String := l.foldr insertSorted []

/-- `', '.join(sorted(state.inventory)) if state.inventory else 'Empty'`. -/
def inventoryDisplay (s : AgentState) : String :=
  if s.inventory.isEmpty then "Empty"
  else String.intercalate ", " (sortStrings s.inventory)

/-- `validate_item_input` from `tools/__init__.py`. -/
def validate_item_input (item : String) : Option String :=
  if !(is_valid_item item) then
    some ("Invalid item \x27" ++ item ++ "\x27. Available items: "
      ++ String.intercalate ", " itemValues)
  else none

/-- The "Weather already checked" message of the weather tool body. -/
def weatherAlreadyCheckedMsg (s : AgentState) : String :=
  "🌤️ Weather already checked! Current weather: " ++ s.weather.value
    ++ "\n📊 Weather status: Known and checked"

/-- The success message of the weather tool body for a fresh draw. -/
def weatherCheckedMsg (draw : WeatherCondition) : String :=
  "🌤️ Weather check complete! Current weather: " ++ draw.value
    ++ "\n📊 Weather status: Known and checked"

/-- `CheckWeatherTool.execute` from `tools/__init__.py` (the tool body,
reachable directly, without the `_run` rule gate).  `draw` is the value
`random.choice` would return: the only nondeterministic point, made an
explicit parameter. -/
def lcCheckWeatherExecute (draw : WeatherCondition) (s : AgentState) : ToolMsg × AgentState :=
  if s.weather_checked = true ∧ s.weather ≠ .unknown then
    (.success (weatherAlreadyCheckedMsg s), s)
  else
    (.success (weatherCheckedMsg draw), s.set_weather draw)

/-- `CheckWeatherTool._run` (via `PolicyEnforcedTool._run`): rule check
first, then the body. -/
def lcCheckWeatherRun (draw : WeatherCondition) (s : AgentState) : ToolMsg × AgentState :=
  match plugin_check_tool_rules s "check_weather" with
  | some reason => (.ruleViolation reason, s)
  | none => lcCheckWeatherExecute draw s

/-- The shopping success message. -/
def shoppingSuccessMsg (item : String) (s : AgentState) : String :=
  "🛒 Successfully purchased: " ++ item ++ ". Added to inventory!\n📊 Current inventory: "
    ++ inventoryDisplay s

/-- `ShoppingTool.execute` from `tools/__init__.py`.  The `item` keyword
argument after input parsing (`None` when absent); `if not item` covers
both `None` and the empty string. -/
def lcShoppingExecute (item? : Option String) (s : AgentState) : ToolMsg × AgentState :=
  if item?.getD "" = "" then (.invalidInput "No item specified for purchase.", s)
  else
    let item := item?.getD ""
    match validate_item_input item with
    | some err => (.invalidInput err, s)
    | none =>
      let s2 := s.add_to_inventory item
      (.success (shoppingSuccessMsg item s2), s2)

/-- `ShoppingTool._run` (via `PolicyEnforcedTool._run`): tool rules first,
then the body.  Input parsing is pure and modelled upstream. -/
def lcShoppingRun (item? : Option String) (s : AgentState) : ToolMsg × AgentState :=
  match plugin_check_tool_rules s "shopping" with
  | some reason => (.ruleViolation reason, s)
  | none => lcShoppingExecute item? s

/-- The comma-separated valid-activity listing used in error messages. -/
def validActivitiesStr : String :=
  String.intercalate ", " [Activity.playGames.value, Activity.goCamping.value, Activity.swimming.value]

/-- The choose-activity success message. -/
def activityChosenMsg (activity : String) (s : AgentState) : String :=
  "🎯 Activity chosen: " ++ activity ++ "! Have fun!\n📊 Current activity: " ++ activity
    ++ "\n📊 Current inventory: " ++ inventoryDisplay s

/-- `ChooseActivityTool._run` from `tools/__init__.py` (the overridden
`_run`): validate the activity string first, then the tool rules and the
activity rules (its `check_tool_rules` override runs the general tool
rules before the activity rules), then `execute` sets the activity. -/
def lcChooseActivityRun (activity? : Option String) (s : AgentState) : ToolMsg × AgentState :=
  if activity?.getD "" = "" then (.invalidInput "No activity specified.", s)
  else
    let activity := activity?.getD ""
    match activityOfValue activity with
    | none => (.invalidInput ("Invalid activity. Choose from: " ++ validActivitiesStr), s)
    | some a =>
      match plugin_check_tool_rules s "choose_activity" with
      | some reason => (.ruleViolation reason, s)
      | none =>
        match plugin_check_activity_rules s activity with
        | some reason => (.ruleViolation reason, s)
        | none =>
          let s2 := s.set_activity a
          (.success (activityChosenMsg activity s2), s2)

/-- `CheckStateTool.execute` / `StatePlugin.check_state`: read-only
snapshot, no rule consultation. -/
def lcCheckStateRun (s : AgentState) : ToolMsg × AgentState :=
  (.success ("📊 **Current Agent State:**\n🎒 Inventory: " ++ inventoryDisplay s
    ++ "\n🌤️ Weather: " ++ s.weather.value ++ " ("
    ++ (if s.weather_checked then "Known" else "Unknown") ++ ")\n🎯 Current Activity: "
    ++ (match s.chosen_activity with | some a => a.value | none => "None chosen")), s)

/-- `WeatherPlugin.check_weather` from `sk_tools.py`: rule check, then
the same body as the LangChain tool. -/
def skCheckWeather (draw : WeatherCondition) (s : AgentState) : ToolMsg × AgentState :=
  match plugin_check_tool_rules s "check_weather" with
  | some reason => (.ruleViolation reason, s)
  | none =>
    if s.weather_checked = true ∧ s.weather ≠ .unknown then
      (.success (weatherAlreadyCheckedMsg s), s)
    else
      (.success (weatherCheckedMsg draw), s.set_weather draw)

/-- `ShoppingPlugin.shopping` from `sk_tools.py`: empty check, rule
check, validation, then the inventory mutation. -/
def skShopping (item : String) (s : AgentState) : ToolMsg × AgentState :=
  if item = "" then (.invalidInput "No item specified for purchase.", s)
  else
    match plugin_check_tool_rules s "shopping" with
    | some reason => (.ruleViolation reason, s)
    | none =>
      if !(is_valid_item item) then
        (.invalidInput ("Invalid item \x27" ++ item ++ "\x27. Available items: "
          ++ String.intercalate ", " itemValues), s)
      else
        let s2 := s.add_to_inventory item
        (.success (shoppingSuccessMsg item s2), s2)

/-- `ActivityPlugin.choose_activity` from `sk_tools.py`: empty check,
activity-string validation, activity rules, general tool rules, then the
activity mutation. -/
def skChooseActivity (activity : String) (s : AgentState) : ToolMsg × AgentState :=
  if activity = "" then (.invalidInput "No activity specified.", s)
  else
    match activityOfValue activity with
    | none => (.invalidInput ("Invalid activity. Choose from: " ++ validActivitiesStr), s)
    | some a =>
      match plugin_check_activity_rules s activity with
      | some reason => (.ruleViolation reason, s)
      | none =>
        match plugin_check_tool_rules s "choose_activity" with
        | some reason => (.ruleViolation reason, s)
        | none =>
          let s2 := s.set_activity a
          (.success (activityChosenMsg activity s2), s2)

/-- One tool invocation, covering both the LangChain tools and the
Semantic Kernel plugin functions, and the direct (rule-gate-bypassing)
call of the weather tool body. -/
inductive ToolCall where
  | lcWeather (draw : WeatherCondition)
  | lcWeatherExecuteDirect (draw : WeatherCondition)
  | lcShopping (item : Option String)
  | lcActivity (activity : Option String)
  | lcState
  | skWeather (draw : WeatherCondition)
  | skShoppingCall (item : String)
  | skActivityCall (activity : String)
  | skState
deriving DecidableEq, Repr

/-- Dispatch of a tool invocation to its implementation. -/
def runToolCall (c : ToolCall) (s : AgentState) : ToolMsg × AgentState :=
  match c with
  | .lcWeather draw => lcCheckWeatherRun draw s
  | .lcWeatherExecuteDirect draw => lcCheckWeatherExecute draw s
  | .lcShopping item => lcShoppingRun item s
  | .lcActivity activity => lcChooseActivityRun activity s
  | .lcState => lcCheckStateRun s
  | .skWeather draw => skCheckWeather draw s
  | .skShoppingCall item => skShopping item s
  | .skActivityCall activity => skChooseActivity activity s
  | .skState => lcCheckStateRun s

/-! ## Python string primitives

The parser in `react_agent.py` uses `str.strip`, `str.split('\n')`,
`str.startswith`, and character slicing (`line[13:]`).  These are
modelled at the character-list level so that they compute by structural
recursion. -/

/-- ASCII whitespace as stripped by `str.strip`. -/
def charIsWS (c : Char) : Bool :=
  c = ' ' ∨ c = '\t' ∨ c = '\n' ∨ c = '\r'

/-- `str.strip` on a character list. -/
def trimChars (l : List Char) : List Char :=
  ((l.dropWhile charIsWS).reverse.dropWhile charIsWS).reverse

/-- `str.strip`. -/
def strTrim (s : String) : String := ⟨trimChars s.data⟩

/-- `str.startswith(p)`: the first `len(p)` characters equal `p`. -/
def strStartsWith (s p : String) : Bool :=
  s.data.take p.data.length == p.data

/-- Character slicing `s[n:]`. -/
def strDrop (s : String) (n : Nat) : String := ⟨s.data.drop n⟩

/-- `str.split('\n')` on a character list (`''.split('\n') == ['']`). -/
def splitNl : List Char → List (List Char)
  | [] => [[]]
  | c :: cs =>
    let r := splitNl cs
    if c = '\n' then [] :: r
    else
      match r with
      | h :: t => (c :: h) :: t
      | [] => [[c]]

/-- `response.strip().split('\n')`. -/
def strLines (s : String) : List String :=
  (splitNl (trimChars s.data)).map (fun cs => ⟨cs⟩)

/-- `pat` occurs starting at some suffix of the list. -/
def containsSubAux (pat : List Char) : List Char → Bool
  | [] => pat.isPrefixOf []
  | c :: cs => pat.isPrefixOf (c :: cs) || containsSubAux pat cs

/-- Substring occurrence (`"pat" in s`), used to state "the reason
contains ...". -/
def strContainsSub (s pat : String) : Bool :=
  containsSubAux pat.data s.data

/-! ## ReAct response parser and loop (`react_agent.py`)

`json.loads` is Python standard-library code, not repository code: it is
an explicit parameter `jsonParse` returning `none` exactly when the
Python call would raise `JSONDecodeError`.  A parsed JSON value is kept
abstractly as an object or string tree. -/

/-- A JSON value as far as the agent inspects one: an object with string
keys, or a string leaf (all the agent ever reads are string fields). -/
inductive JsonVal where
  | obj (fields : List (String × JsonVal))
  | str (s : String)

/-- String field lookup in a parsed action input
(`KernelArguments(**action_input)` followed by a string parameter). -/
def JsonVal.getStr (j : JsonVal) (key : String) : Option String :=
  match j with
  | .obj fields =>
    match fields.find? (fun p => p.1 == key) with
    | some (_, .str v) => some v
    | _ => none
  | _ => none

/-- `ReActIteration` dataclass: `action_input` defaults to `{}`. -/
structure Iteration where
  thought : String := ""
  action : String := ""
  action_input : JsonVal := .obj []

/-- The `Action Input:` content handling of `ReActAgent._parse_response`:
empty content yields `{}`; otherwise `json.loads`, and on
`JSONDecodeError` the raw text is wrapped as `{"input": raw}`. -/
def parseActionInputValue (jsonParse : String → Option JsonVal) (inputStr : String) : JsonVal :=
  if inputStr = "" then .obj []
  else
    match jsonParse inputStr with
    | some v => v
    | none => .obj [("input", .str inputStr)]

/-- The line loop of `ReActAgent._parse_response`: each line is stripped
and matched against the four markers; the first `Final Answer:` line
returns immediately with the answer text. -/
def parseResponseLines (jsonParse : String → Option JsonVal) :
    List String → Iteration → Iteration × Option String
  | [], it => (it, none)
  | line :: rest, it =>
    let l := strTrim line
    if strStartsWith l "Thought:" then
      parseResponseLines jsonParse rest { it with thought := strTrim (strDrop l 8) }
    else if strStartsWith l "Action:" then
      parseResponseLines jsonParse rest { it with action := strTrim (strDrop l 7) }
    else if strStartsWith l "Action Input:" then
      parseResponseLines jsonParse rest
        { it with action_input := parseActionInputValue jsonParse (strTrim (strDrop l 13)) }
    else if strStartsWith l "Final Answer:" then
      (it, some (strTrim (strDrop l 13)))
    else
      parseResponseLines jsonParse rest it

/-- `ReActAgent._parse_response` on a whole response. -/
def parse_response (jsonParse : String → Option JsonVal) (response : String)
    (it : Iteration) : Iteration × Option String :=
  parseResponseLines jsonParse (strLines response) it

/-- Python `action.split('.', 1)` when a dot is present: the part before
the first dot and everything after it. -/
def splitFirstDot : List Char → Option (List Char × List Char)
  | [] => none
  | c :: cs =>
    if c = '.' then some ([], cs)
    else
      match splitFirstDot cs with
      | some (a, b) => some (c :: a, b)
      | none => none

/-- The registered kernel functions: `(plugin_name, function_name)` as
registered by `agents.py` (`WeatherPlugin` → `weather`, and so on). -/
def kernelFunctions : List (String × String) :=
  [("weather", "check_weather"), ("shopping", "shopping"),
   ("activity", "choose_activity"), ("state", "check_state")]

/-- Name resolution in `ReActAgent._execute_action`: split on the first
dot when present, else scan the registered functions by bare name. -/
def resolveAction (action : String) : Option (String × String) :=
  match splitFirstDot action.data with
  | some (p, f) => some (⟨p⟩, ⟨f⟩)
  | none =>
    match kernelFunctions.find? (fun pf => pf.2 == action) with
    | some pf => some pf
    | none => none

/-- `ReActAgent._execute_action`: resolve the name, look the function up
in the kernel, and invoke the plugin function with the parsed arguments.
Every exception is caught and rendered as an error-observation string;
the exact exception text of the kernel is abstracted, its `"❌ "` error
shape is kept. -/
def execute_action (draw : WeatherCondition) (action : String) (input : JsonVal)
    (s : AgentState) : String × AgentState :=
  match resolveAction action with
  | none => ("❌ Could not find plugin for function: " ++ action, s)
  | some (plugin, func) =>
    if plugin = "weather" ∧ func = "check_weather" then
      let r := skCheckWeather draw s
      (r.1.render, r.2)
    else if plugin = "shopping" ∧ func = "shopping" then
      match input.getStr "item" with
      | some item =>
        let r := skShopping item s
        (r.1.render, r.2)
      | none => ("❌ Error executing action " ++ action ++ ": missing parameter item", s)
    else if plugin = "activity" ∧ func = "choose_activity" then
      match input.getStr "activity" with
      | some act =>
        let r := skChooseActivity act s
        (r.1.render, r.2)
      | none => ("❌ Error executing action " ++ action ++ ": missing parameter activity", s)
    else if plugin = "state" ∧ func = "check_state" then
      let r := lcCheckStateRun s
      (r.1.render, r.2)
    else ("❌ Error executing action " ++ action ++ ": function not found", s)

/-- A transcript message (`{role, content}`). -/
structure ChatMsg where
  role : String
  content : String

/-- Terminal outcome of `ReActAgent.run_async`: the two return sites of
the loop (the per-iteration exception return is unreachable in the pure
model, where every tool call and client call is total). -/
inductive Outcome where
  | finalAnswer (text : String)
  | maxIterationsExceeded

/-- The string each outcome returns to the caller. -/
def Outcome.render : Outcome → String
  | .finalAnswer text => text
  | .maxIterationsExceeded => "❌ Maximum iterations reached without finding a final answer."

/-- The loop-carried state of `ReActAgent.run_async`: the chat history,
the world state, the current (possibly partially filled) iteration, and
the number of completion-client calls made so far. -/
structure LoopState where
  history : List ChatMsg
  world : AgentState
  current : Iteration
  turns : Nat

/-- The `for iteration_num in range(self.max_iterations)` loop of
`ReActAgent.run_async`.  `client n` is the completion response of the
`n`-th reasoning turn and `randw n` the weather `random.choice` would
draw on that turn; a parsed `Final Answer:` terminates, an action is
executed and its observation appended, and a response with neither is
appended unchanged (the stalled-turn case).  When the range is
exhausted the max-iterations outcome is returned. -/
def runReact (client : Nat → String) (jsonParse : String → Option JsonVal)
    (randw : Nat → WeatherCondition) : Nat → LoopState → Outcome × LoopState
  | 0, st => (.maxIterationsExceeded, st)
  | fuel + 1, st =>
    let response := client st.turns
    let parsed := parse_response jsonParse response st.current
    match parsed.2 with
    | some ans => (.finalAnswer ans, { st with current := parsed.1, turns := st.turns + 1 })
    | none =>
      if parsed.1.action = "" then
        runReact client jsonParse randw fuel
          { st with
            history := st.history ++ [⟨"assistant", response⟩]
            current := parsed.1
            turns := st.turns + 1 }
      else
        let acted := execute_action (randw st.turns) parsed.1.action parsed.1.action_input st.world
        runReact client jsonParse randw fuel
          { history := st.history ++ [⟨"assistant", response⟩, ⟨"user", "Observation: " ++ acted.1⟩]
            world := acted.2
            current := {}
            turns := st.turns + 1 }

/-- `ReActAgent.run_async` from the fresh chat history holding the
question, over at most `maxIter` reasoning turns. -/
def runAgent (client : Nat → String) (jsonParse : String → Option JsonVal)
    (randw : Nat → WeatherCondition) (maxIter : Nat) (question : String)
    (world0 : AgentState) : Outcome × LoopState :=
  runReact client jsonParse randw maxIter
    { history := [⟨"user", "Question: " ++ question⟩]
      world := world0
      current := {}
      turns := 0 }

/-- A completion response containing no line that (after stripping)
starts with `Final Answer:`. -/
def noFinalAnswerLine (resp : String) : Prop :=
  ∀ l ∈ strLines resp, strStartsWith (strTrim l) "Final Answer:" = false

/-! ## Helper lemmas -/

/-- The case-insensitive membership test performed inside
`get_missing_items` (lowercased inventory contains lowercased name). -/
def hasItemCI (inv : List String) (name : String) : Bool :=
  (inv.map strToLower).contains (strToLower name)

theorem get_missing_items_playGames (inv : List String) :
    get_missing_items Activity.playGames.value inv =
      (if hasItemCI inv "TV" = true then [] else ["TV"]) ++
      (if hasItemCI inv "Xbox" = true then [] else ["Xbox"]) := by
  unfold get_missing_items get_requirements_for_activity hasItemCI
  dsimp only
  rw [if_pos rfl]
  simp only [List.filter]
  generalize (inv.map strToLower).contains (strToLower "TV") = bA
  generalize (inv.map strToLower).contains (strToLower "Xbox") = bB
  cases bA <;> cases bB <;> simp

theorem get_missing_items_goCamping (inv : List String) :
    get_missing_items Activity.goCamping.value inv =
      (if hasItemCI inv "Hiking Boots" = true then [] else ["Hiking Boots"]) := by
  unfold get_missing_items get_requirements_for_activity hasItemCI
  dsimp only
  rw [if_neg (by decide), if_pos rfl]
  simp only [List.filter]
  generalize (inv.map strToLower).contains (strToLower "Hiking Boots") = bA
  cases bA <;> simp

theorem playGamesRule_allowed_shape (s : AgentState)
    (h : (playGamesRule s Activity.playGames.value).allowed = true) :
    playGamesRule s Activity.playGames.value = { allowed := true } := by
  unfold playGamesRule at h ⊢
  dsimp only at h ⊢
  cases hm : (get_missing_items Activity.playGames.value s.inventory).isEmpty <;>
    simp_all

theorem campingEquipmentRule_playGames (s : AgentState) :
    campingEquipmentRule s Activity.playGames.value = { allowed := true } := by
  unfold campingEquipmentRule
  split_ifs with h <;> simp_all [Activity.value]

theorem swimmingEquipmentRule_playGames (s : AgentState) :
    swimmingEquipmentRule s Activity.playGames.value = { allowed := true } := by
  unfold swimmingEquipmentRule
  split_ifs with h <;> simp_all [Activity.value]

theorem campingWeatherRule_playGames (s : AgentState) :
    campingWeatherRule s Activity.playGames.value = { allowed := true } := by
  unfold campingWeatherRule
  split_ifs with h <;> simp_all [Activity.value]

theorem swimmingWeatherRule_playGames (s : AgentState) :
    swimmingWeatherRule s Activity.playGames.value = { allowed := true } := by
  unfold swimmingWeatherRule
  split_ifs with h <;> simp_all [Activity.value]

theorem unknownWeatherRule_playGames (s : AgentState) :
    unknownWeatherRule s Activity.playGames.value = { allowed := true } := by
  unfold unknownWeatherRule
  split_ifs with h1 h2 <;> simp_all

theorem check_activity_rules_playGames (s : AgentState) :
    check_activity_rules s Activity.playGames.value = playGamesRule s Activity.playGames.value := by
  by_cases h : (playGamesRule s Activity.playGames.value).allowed = true
  · rw [check_activity_rules, playGamesRule_allowed_shape s h]
    simp [campingEquipmentRule_playGames, swimmingEquipmentRule_playGames,
      campingWeatherRule_playGames, swimmingWeatherRule_playGames, unknownWeatherRule_playGames]
  · rw [check_activity_rules]
    simp only [Bool.not_eq_true] at h
    simp [h]

/-! ## Claim theorems: rule engine -/

/-- C2: `CheckActivityRules(state, PlayGames)` allows exactly when the
inventory case-insensitively contains "TV" and "Xbox" — independent of
the weather — and a denial reason lists exactly the missing subset in
the order TV then Xbox. -/
theorem playGames_rule_characterization (s : AgentState) :
    ((check_activity_rules s Activity.playGames.value).allowed = true ↔
      hasItemCI s.inventory "TV" = true ∧ hasItemCI s.inventory "Xbox" = true) ∧
    (get_missing_items Activity.playGames.value s.inventory =
      (if hasItemCI s.inventory "TV" = true then [] else ["TV"]) ++
      (if hasItemCI s.inventory "Xbox" = true then [] else ["Xbox"])) ∧
    ((check_activity_rules s Activity.playGames.value).allowed = false →
      (check_activity_rules s Activity.playGames.value).reason =
        some ("Cannot play games. Missing required items: " ++
          String.intercalate ", " (get_missing_items Activity.playGames.value s.inventory))) := by
  have hmiss := get_missing_items_playGames s.inventory
  rw [check_activity_rules_playGames]
  unfold playGamesRule
  rw [hmiss]
  by_cases h1 : hasItemCI s.inventory "TV" = true <;>
    by_cases h2 : hasItemCI s.inventory "Xbox" = true <;>
      simp_all

/-- C2 witness: on the empty initial state the rule denies and lists
both TV and Xbox, in that order. -/
theorem playGames_rule_characterization_witness :
    (check_activity_rules initialState Activity.playGames.value).reason =
      some "Cannot play games. Missing required items: TV, Xbox" := by
  have h := (playGames_rule_characterization initialState).2.2 (by decide)
  rw [h]
  decide

theorem playGamesRule_goCamping (s : AgentState) :
    playGamesRule s Activity.goCamping.value = { allowed := true } := by
  unfold playGamesRule
  rw [if_pos (by decide)]

theorem swimmingEquipmentRule_goCamping (s : AgentState) :
    swimmingEquipmentRule s Activity.goCamping.value = { allowed := true } := by
  unfold swimmingEquipmentRule
  rw [if_pos (by decide)]

theorem campingEquipmentRule_goCamping (s : AgentState) :
    campingEquipmentRule s Activity.goCamping.value =
      (if hasItemCI s.inventory "Hiking Boots" = true then { allowed := true }
       else { allowed := false
              reason := some "Cannot go camping. Missing required item: Hiking Boots" }) := by
  unfold campingEquipmentRule
  rw [if_neg (by decide)]
  dsimp only
  rw [get_missing_items_goCamping]
  cases hb : hasItemCI s.inventory "Hiking Boots" <;> simp [hb]

theorem campingWeatherRule_goCamping_raining (s : AgentState) (h : s.weather = .raining) :
    campingWeatherRule s Activity.goCamping.value =
      { allowed := false, reason := some "Cannot go camping because it\x27s raining" } := by
  unfold campingWeatherRule
  rw [if_neg (by decide), if_pos h]

theorem check_activity_rules_goCamping_raining (s : AgentState) (h : s.weather = .raining) :
    check_activity_rules s Activity.goCamping.value =
      (if hasItemCI s.inventory "Hiking Boots" = true
       then { allowed := false, reason := some "Cannot go camping because it\x27s raining" }
       else { allowed := false
              reason := some "Cannot go camping. Missing required item: Hiking Boots" }) := by
  unfold check_activity_rules
  simp only [playGamesRule_goCamping, campingEquipmentRule_goCamping,
    swimmingEquipmentRule_goCamping, campingWeatherRule_goCamping_raining s h]
  cases hb : hasItemCI s.inventory "Hiking Boots" <;> simp [hb]

/-- C3 (amended): with `weather == Raining`, `CheckActivityRules(state,
GoCamping)` always denies; the reason contains "raining" exactly when
the inventory (case-insensitively) holds Hiking Boots, while a state
missing the boots is denied by the earlier camping-equipment rule, whose
reason does not contain "raining". -/
theorem goCamping_raining_always_denied (s : AgentState) (h : s.weather = .raining) :
    ((check_activity_rules s Activity.goCamping.value).allowed = false) ∧
    (hasItemCI s.inventory "Hiking Boots" = true →
      (check_activity_rules s Activity.goCamping.value).reason =
        some "Cannot go camping because it\x27s raining") ∧
    (hasItemCI s.inventory "Hiking Boots" = false →
      (check_activity_rules s Activity.goCamping.value).reason =
        some "Cannot go camping. Missing required item: Hiking Boots") ∧
    strContainsSub "Cannot go camping because it\x27s raining" "raining" = true ∧
    strContainsSub "Cannot go camping. Missing required item: Hiking Boots" "raining" = false := by
  rw [check_activity_rules_goCamping_raining s h]
  cases hb : hasItemCI s.inventory "Hiking Boots" <;> simp [hb] <;> decide

/-- C3 counterexample: raining with an empty inventory is denied by the
equipment rule, so the reason does not contain "raining" (refuting the
claim that every raining denial of GoCamping cites the rain). -/
theorem goCamping_raining_reason_counterexample :
    ({ weather := .raining } : AgentState).weather = .raining ∧
    (check_activity_rules ({ weather := .raining } : AgentState) Activity.goCamping.value).reason =
      some "Cannot go camping. Missing required item: Hiking Boots" ∧
    strContainsSub "Cannot go camping. Missing required item: Hiking Boots" "raining" = false := by
  decide

/-- C3 witness: raining with Hiking Boots present is denied citing the
rain; raining with an empty inventory is still denied. -/
theorem goCamping_raining_always_denied_witness :
    (check_activity_rules ({ inventory := ["Hiking Boots"], weather := .raining } : AgentState)
      Activity.goCamping.value).reason =
      some "Cannot go camping because it\x27s raining" ∧
    (check_activity_rules ({ weather := .raining } : AgentState)
      Activity.goCamping.value).allowed = false := by
  have h1 := goCamping_raining_always_denied
    ({ inventory := ["Hiking Boots"], weather := .raining } : AgentState) rfl
  have h2 := goCamping_raining_always_denied ({ weather := .raining } : AgentState) rfl
  exact ⟨h1.2.1 (by decide), h2.1⟩

/-- C4 counterexample: after adding the registered item under its
canonical casing "TV", `has_item` (and `has_items`) with the casing
"tv" returns `False` — membership is exact string membership, not
case-insensitive. -/
theorem has_item_case_counterexample :
    (AgentState.add_to_inventory initialState "TV").has_item "tv" = false ∧
    (AgentState.add_to_inventory initialState "TV").has_items ["tv"] = false := by
  decide

/-- C4 (amended): `add_to_inventory` stores the canonical casing of a
registered item, so a subsequent `has_item` with the canonical name
returns `True`, and the rule engine's case-insensitive comparison
recognizes the item under the original casing; `has_item` itself is
exact membership, so a non-canonical casing query can return `False`. -/
theorem add_to_inventory_canonical_roundtrip (s : AgentState) (name : String)
    (h : is_valid_item name = true) :
    (s.add_to_inventory name).has_item (normalize_item_name name) = true ∧
    hasItemCI (s.add_to_inventory name).inventory name = true := by
  have hne : ¬(name = "") := by
    intro he
    rw [is_valid_item, if_pos he] at h
    exact Bool.false_ne_true h
  have hmem : normalize_item_name name ∈ (s.add_to_inventory name).inventory := by
    unfold AgentState.add_to_inventory
    dsimp only
    by_cases hc : s.inventory.contains (normalize_item_name name) = true
    · rw [if_pos hc]
      simpa using hc
    · rw [if_neg hc]
      simp
  have hlow : strToLower (normalize_item_name name) = strToLower name := by
    rw [is_valid_item, if_neg hne, List.any_eq_true] at h
    obtain ⟨it, hit, hp⟩ := h
    have hsome : (itemValues.find? (fun item => strToLower item == strToLower name)).isSome := by
      rw [List.find?_isSome]
      exact ⟨it, hit, hp⟩
    obtain ⟨it0, hfind⟩ := Option.isSome_iff_exists.mp hsome
    have hp0 := List.find?_some hfind
    rw [normalize_item_name, if_neg hne, hfind]
    exact beq_iff_eq.mp hp0
  refine ⟨by simpa [AgentState.has_item] using List.elem_eq_true_of_mem hmem, ?_⟩
  have hmem2 : strToLower name ∈ (s.add_to_inventory name).inventory.map strToLower := by
    rw [← hlow]
    exact List.mem_map_of_mem strToLower hmem
  simpa [hasItemCI] using List.elem_eq_true_of_mem hmem2

/-- C4 witness: adding "xbox" stores "Xbox"; the canonical query and the
case-insensitive comparison both see it. -/
theorem add_to_inventory_canonical_roundtrip_witness :
    (initialState.add_to_inventory "xbox").has_item (normalize_item_name "xbox") = true ∧
    hasItemCI (initialState.add_to_inventory "xbox").inventory "xbox" = true :=
  add_to_inventory_canonical_roundtrip initialState "xbox" (by decide)

/-- C6: `CheckToolRules(state, toolName)` denies exactly for the
weather-check tool once the weather is checked and known, with a reason
containing "already been checked"; every other tool name and the first
weather check are allowed. -/
theorem check_tool_rules_characterization (s : AgentState) (tool_name : String) :
    ((check_tool_rules s tool_name).allowed = false ↔
      (tool_name = "check_weather" ∧ s.weather_checked = true ∧ s.weather ≠ .unknown)) ∧
    ((check_tool_rules s tool_name).allowed = false →
      (check_tool_rules s tool_name).reason =
        some "Weather has already been checked and is known. Cannot check weather again") ∧
    strContainsSub "Weather has already been checked and is known. Cannot check weather again"
      "already been checked" = true := by
  refine ⟨?_, ?_, by decide⟩ <;>
  · unfold check_tool_rules weatherCheckRule
    dsimp only
    split_ifs with h1 h2 <;> simp_all

/-- C6 witness: with sunny checked weather the second weather check is
denied with the recheck reason; the fresh state and other tools are
allowed. -/
theorem check_tool_rules_characterization_witness :
    (check_tool_rules (initialState.set_weather .sunny) "check_weather").reason =
      some "Weather has already been checked and is known. Cannot check weather again" ∧
    (check_tool_rules initialState "check_weather").allowed = true ∧
    (check_tool_rules (initialState.set_weather .sunny) "shopping").allowed = true := by
  refine ⟨?_, by decide, by decide⟩
  exact (check_tool_rules_characterization (initialState.set_weather .sunny)
    "check_weather").2.1 (by decide)

/-- C10: for an activity string that is none of the three known values,
the rule engine allows exactly when the weather is known, denying with
the unknown-weather reason otherwise; rejecting the invalid name happens
solely in the choose-activity tool, which returns an invalid-input
message and leaves the state unchanged before the engine is consulted. -/
theorem unknown_activity_rule_engine (s : AgentState) (act : String)
    (h1 : act ≠ Activity.playGames.value) (h2 : act ≠ Activity.goCamping.value)
    (h3 : act ≠ Activity.swimming.value) :
    ((check_activity_rules s act).allowed = true ↔ s.weather ≠ .unknown) ∧
    (s.weather = .unknown →
      (check_activity_rules s act).reason =
        some "Weather is unknown. You can only play games until weather is checked") ∧
    ((skChooseActivity act s).2 = s ∧
      ∃ m, (skChooseActivity act s).1 = ToolMsg.invalidInput m) := by
  have hofv : activityOfValue act = none := by
    rw [activityOfValue, if_neg h1, if_neg h2, if_neg h3]
  have hengine : check_activity_rules s act = unknownWeatherRule s act := by
    unfold check_activity_rules
    rw [playGamesRule, if_pos h1, campingEquipmentRule, if_pos h2,
      swimmingEquipmentRule, if_pos h3, campingWeatherRule, if_pos h2,
      swimmingWeatherRule, if_pos h3]
    dsimp only
    by_cases hu : (unknownWeatherRule s act).allowed = true
    · have : unknownWeatherRule s act = { allowed := true } := by
        unfold unknownWeatherRule at hu ⊢
        split_ifs at hu ⊢ <;> simp_all
      simp [this]
    · simp only [Bool.not_eq_true] at hu
      simp [hu]
  constructor
  · rw [hengine]
    unfold unknownWeatherRule
    split_ifs with hw hpg <;> simp_all
  constructor
  · intro hu
    rw [hengine]
    unfold unknownWeatherRule
    rw [if_neg (by simp [hu]), if_neg h1]
  · unfold skChooseActivity
    by_cases hq : act = ""
    · rw [if_pos hq]
      exact ⟨rfl, "No activity specified.", rfl⟩
    · rw [if_neg hq, hofv]
      exact ⟨rfl, "Invalid activity. Choose from: " ++ validActivitiesStr, rfl⟩

/-- C10 witness: the unregistered activity "Dancing" on the fresh state
is denied by the engine citing unknown weather, and the tool rejects it
without consulting the engine or touching the state. -/
theorem unknown_activity_rule_engine_witness :
    (check_activity_rules initialState "Dancing").reason =
      some "Weather is unknown. You can only play games until weather is checked" ∧
    (skChooseActivity "Dancing" initialState).2 = initialState := by
  have h := unknown_activity_rule_engine initialState "Dancing"
    (by decide) (by decide) (by decide)
  exact ⟨h.2.1 rfl, h.2.2.1⟩

/-! ## Tool-level helper lemmas -/

theorem lcCheckWeatherExecute_error (draw : WeatherCondition) (s : AgentState)
    (h : (lcCheckWeatherExecute draw s).1.isError = true) :
    (lcCheckWeatherExecute draw s).2 = s := by
  unfold lcCheckWeatherExecute at h ⊢
  split_ifs at h ⊢ <;> simp_all [ToolMsg.isError]

theorem lcCheckWeatherRun_error (draw : WeatherCondition) (s : AgentState)
    (h : (lcCheckWeatherRun draw s).1.isError = true) :
    (lcCheckWeatherRun draw s).2 = s := by
  unfold lcCheckWeatherRun at h ⊢
  revert h
  cases hm : plugin_check_tool_rules s "check_weather" with
  | none =>
    intro h
    exact lcCheckWeatherExecute_error draw s h
  | some r => intro _; rfl

theorem skCheckWeather_error (draw : WeatherCondition) (s : AgentState)
    (h : (skCheckWeather draw s).1.isError = true) :
    (skCheckWeather draw s).2 = s := by
  unfold skCheckWeather at h ⊢
  revert h
  cases hm : plugin_check_tool_rules s "check_weather" with
  | none =>
    dsimp only
    intro h
    split_ifs at h ⊢ <;> simp_all [ToolMsg.isError]
  | some r => intro _; rfl

theorem lcShoppingExecute_error (item? : Option String) (s : AgentState)
    (h : (lcShoppingExecute item? s).1.isError = true) :
    (lcShoppingExecute item? s).2 = s := by
  unfold lcShoppingExecute at h ⊢
  dsimp only at h ⊢
  revert h
  by_cases he : item?.getD "" = ""
  · rw [if_pos he]; intro _; rfl
  · rw [if_neg he]
    cases hv : validate_item_input (item?.getD "") with
    | none =>
      dsimp only
      intro h
      simp [ToolMsg.isError] at h
    | some err => intro _; rfl

theorem lcShoppingRun_error (item? : Option String) (s : AgentState)
    (h : (lcShoppingRun item? s).1.isError = true) :
    (lcShoppingRun item? s).2 = s := by
  unfold lcShoppingRun at h ⊢
  revert h
  cases hm : plugin_check_tool_rules s "shopping" with
  | none =>
    intro h
    exact lcShoppingExecute_error item? s h
  | some r => intro _; rfl

theorem skShopping_error (item : String) (s : AgentState)
    (h : (skShopping item s).1.isError = true) :
    (skShopping item s).2 = s := by
  unfold skShopping at h ⊢
  revert h
  by_cases he : item = ""
  · rw [if_pos he]; intro _; rfl
  · rw [if_neg he]
    cases hm : plugin_check_tool_rules s "shopping" with
    | none =>
      dsimp only
      by_cases hv : (!is_valid_item item) = true
      · rw [if_pos hv]; intro _; rfl
      · rw [if_neg hv]
        dsimp only
        intro h
        simp [ToolMsg.isError] at h
    | some r => intro _; rfl

theorem lcChooseActivityRun_error (activity? : Option String) (s : AgentState)
    (h : (lcChooseActivityRun activity? s).1.isError = true) :
    (lcChooseActivityRun activity? s).2 = s := by
  unfold lcChooseActivityRun at h ⊢
  dsimp only at h ⊢
  revert h
  by_cases he : activity?.getD "" = ""
  · rw [if_pos he]; intro _; rfl
  · rw [if_neg he]
    cases ho : activityOfValue (activity?.getD "") with
    | none => intro _; rfl
    | some a =>
      dsimp only
      cases ht : plugin_check_tool_rules s "choose_activity" with
      | none =>
        dsimp only
        cases ha : plugin_check_activity_rules s (activity?.getD "") with
        | none =>
          dsimp only
          intro h
          simp [ToolMsg.isError] at h
        | some r => intro _; rfl
      | some r => intro _; rfl

theorem skChooseActivity_error (activity : String) (s : AgentState)
    (h : (skChooseActivity activity s).1.isError = true) :
    (skChooseActivity activity s).2 = s := by
  unfold skChooseActivity at h ⊢
  revert h
  by_cases he : activity = ""
  · rw [if_pos he]; intro _; rfl
  · rw [if_neg he]
    cases ho : activityOfValue activity with
    | none => intro _; rfl
    | some a =>
      dsimp only
      cases ha : plugin_check_activity_rules s activity with
      | none =>
        dsimp only
        cases ht : plugin_check_tool_rules s "choose_activity" with
        | none =>
          dsimp only
          intro h
          simp [ToolMsg.isError] at h
        | some r => intro _; rfl
      | some r => intro _; rfl

/-! ## Claim theorems: tool calls -/

/-- C1: any tool invocation answering with a rule-violation or
invalid-input message leaves the world state exactly as it was: all rule
checks and input validation happen strictly before any state write. -/
theorem tool_error_leaves_state_unchanged (c : ToolCall) (s : AgentState)
    (h : (runToolCall c s).1.isError = true) :
    (runToolCall c s).2 = s := by
  cases c with
  | lcWeather draw => exact lcCheckWeatherRun_error draw s h
  | lcWeatherExecuteDirect draw => exact lcCheckWeatherExecute_error draw s h
  | lcShopping item => exact lcShoppingRun_error item s h
  | lcActivity activity => exact lcChooseActivityRun_error activity s h
  | lcState => simp [runToolCall, lcCheckStateRun, ToolMsg.isError] at h
  | skWeather draw => exact skCheckWeather_error draw s h
  | skShoppingCall item => exact skShopping_error item s h
  | skActivityCall activity => exact skChooseActivity_error activity s h
  | skState => simp [runToolCall, lcCheckStateRun, ToolMsg.isError] at h

/-- C1 witness: choosing Swimming on the fresh state is a rule
violation (unknown weather) and leaves the state unchanged. -/
theorem tool_error_leaves_state_unchanged_witness :
    ((runToolCall (.skActivityCall "Swimming") initialState).1.isError = true) ∧
    (runToolCall (.skActivityCall "Swimming") initialState).2 = initialState :=
  ⟨by decide,
   tool_error_leaves_state_unchanged (.skActivityCall "Swimming") initialState (by decide)⟩

/-! ## State operations and the weather invariant -/

/-- One state-mutating operation: a direct `AgentState` setter or a tool
call (the only writers of the state in the source). -/
inductive StateOp where
  | addItem (item : String)
  | setWeatherOp (w : WeatherCondition)
  | setActivityOp (a : Activity)
  | toolOp (c : ToolCall)
deriving Repr

/-- Application of one state operation. -/
def applyStateOp (s : AgentState) : StateOp → AgentState
  | .addItem item => s.add_to_inventory item
  | .setWeatherOp w => s.set_weather w
  | .setActivityOp a => s.set_activity a
  | .toolOp c => (runToolCall c s).2

/-- Whether the operation goes through `set_weather` (directly or via
the weather tool body). -/
def StateOp.isWeatherWrite : StateOp → Bool
  | .setWeatherOp _ => true
  | .toolOp (.lcWeather _) => true
  | .toolOp (.lcWeatherExecuteDirect _) => true
  | .toolOp (.skWeather _) => true
  | _ => false

/-- The spec invariant: `weather_checked` holds whenever the weather is
known. -/
def weatherInvariant (s : AgentState) : Prop :=
  s.weather ≠ .unknown → s.weather_checked = true

theorem lcShoppingRun_state (item? : Option String) (s : AgentState) :
    (lcShoppingRun item? s).2 = s ∨
    (lcShoppingRun item? s).2 = s.add_to_inventory (item?.getD "") := by
  unfold lcShoppingRun lcShoppingExecute
  cases hm : plugin_check_tool_rules s "shopping" with
  | none =>
    dsimp only
    by_cases he : item?.getD "" = ""
    · rw [if_pos he]; exact Or.inl rfl
    · rw [if_neg he]
      cases hv : validate_item_input (item?.getD "") with
      | none => exact Or.inr rfl
      | some err => exact Or.inl rfl
  | some r => exact Or.inl rfl

theorem skShopping_state (item : String) (s : AgentState) :
    (skShopping item s).2 = s ∨ (skShopping item s).2 = s.add_to_inventory item := by
  unfold skShopping
  by_cases he : item = ""
  · rw [if_pos he]; exact Or.inl rfl
  · rw [if_neg he]
    cases hm : plugin_check_tool_rules s "shopping" with
    | none =>
      dsimp only
      by_cases hv : (!is_valid_item item) = true
      · rw [if_pos hv]; exact Or.inl rfl
      · rw [if_neg hv]; exact Or.inr rfl
    | some r => exact Or.inl rfl

theorem lcChooseActivityRun_state (activity? : Option String) (s : AgentState) :
    (lcChooseActivityRun activity? s).2 = s ∨
    ∃ a, (lcChooseActivityRun activity? s).2 = s.set_activity a := by
  unfold lcChooseActivityRun
  dsimp only
  by_cases he : activity?.getD "" = ""
  · rw [if_pos he]; exact Or.inl rfl
  · rw [if_neg he]
    cases ho : activityOfValue (activity?.getD "") with
    | none => exact Or.inl rfl
    | some a =>
      dsimp only
      cases ht : plugin_check_tool_rules s "choose_activity" with
      | none =>
        dsimp only
        cases ha : plugin_check_activity_rules s (activity?.getD "") with
        | none => exact Or.inr ⟨a, rfl⟩
        | some r => exact Or.inl rfl
      | some r => exact Or.inl rfl

theorem skChooseActivity_state (activity : String) (s : AgentState) :
    (skChooseActivity activity s).2 = s ∨
    ∃ a, (skChooseActivity activity s).2 = s.set_activity a := by
  unfold skChooseActivity
  by_cases he : activity = ""
  · rw [if_pos he]; exact Or.inl rfl
  · rw [if_neg he]
    cases ho : activityOfValue activity with
    | none => exact Or.inl rfl
    | some a =>
      dsimp only
      cases ha : plugin_check_activity_rules s activity with
      | none =>
        dsimp only
        cases ht : plugin_check_tool_rules s "choose_activity" with
        | none => exact Or.inr ⟨a, rfl⟩
        | some r => exact Or.inl rfl
      | some r => exact Or.inl rfl

theorem lcCheckWeatherExecute_state (draw : WeatherCondition) (s : AgentState) :
    (lcCheckWeatherExecute draw s).2 = s ∨
    (lcCheckWeatherExecute draw s).2 = s.set_weather draw := by
  unfold lcCheckWeatherExecute
  split_ifs
  · exact Or.inl rfl
  · exact Or.inr rfl

theorem lcCheckWeatherRun_state (draw : WeatherCondition) (s : AgentState) :
    (lcCheckWeatherRun draw s).2 = s ∨
    (lcCheckWeatherRun draw s).2 = s.set_weather draw := by
  unfold lcCheckWeatherRun
  cases hm : plugin_check_tool_rules s "check_weather" with
  | none => exact lcCheckWeatherExecute_state draw s
  | some r => exact Or.inl rfl

theorem skCheckWeather_state (draw : WeatherCondition) (s : AgentState) :
    (skCheckWeather draw s).2 = s ∨
    (skCheckWeather draw s).2 = s.set_weather draw := by
  unfold skCheckWeather
  cases hm : plugin_check_tool_rules s "check_weather" with
  | none =>
    dsimp only
    split_ifs
    · exact Or.inl rfl
    · exact Or.inr rfl
  | some r => exact Or.inl rfl

theorem runToolCall_state_shape (c : ToolCall) (s : AgentState) :
    (runToolCall c s).2 = s ∨
    (∃ w, (runToolCall c s).2 = s.set_weather w) ∨
    (∃ i, (runToolCall c s).2 = s.add_to_inventory i) ∨
    (∃ a, (runToolCall c s).2 = s.set_activity a) := by
  cases c with
  | lcWeather draw =>
    rcases lcCheckWeatherRun_state draw s with h | h
    · exact Or.inl h
    · exact Or.inr (Or.inl ⟨draw, h⟩)
  | lcWeatherExecuteDirect draw =>
    rcases lcCheckWeatherExecute_state draw s with h | h
    · exact Or.inl h
    · exact Or.inr (Or.inl ⟨draw, h⟩)
  | lcShopping item =>
    rcases lcShoppingRun_state item s with h | h
    · exact Or.inl h
    · exact Or.inr (Or.inr (Or.inl ⟨_, h⟩))
  | lcActivity activity =>
    rcases lcChooseActivityRun_state activity s with h | ⟨a, h⟩
    · exact Or.inl h
    · exact Or.inr (Or.inr (Or.inr ⟨a, h⟩))
  | lcState => exact Or.inl rfl
  | skWeather draw =>
    rcases skCheckWeather_state draw s with h | h
    · exact Or.inl h
    · exact Or.inr (Or.inl ⟨draw, h⟩)
  | skShoppingCall item =>
    rcases skShopping_state item s with h | h
    · exact Or.inl h
    · exact Or.inr (Or.inr (Or.inl ⟨item, h⟩))
  | skActivityCall activity =>
    rcases skChooseActivity_state activity s with h | ⟨a, h⟩
    · exact Or.inl h
    · exact Or.inr (Or.inr (Or.inr ⟨a, h⟩))
  | skState => exact Or.inl rfl

theorem applyStateOp_preserves_weatherInvariant (s : AgentState) (op : StateOp)
    (h : weatherInvariant s) : weatherInvariant (applyStateOp s op) := by
  cases op with
  | addItem i => intro hw; exact h hw
  | setWeatherOp w => intro _; rfl
  | setActivityOp a => intro hw; exact h hw
  | toolOp c =>
    rcases runToolCall_state_shape c s with h1 | ⟨w, h1⟩ | ⟨i, h1⟩ | ⟨a, h1⟩ <;>
      (show weatherInvariant ((runToolCall c s).2)
       rw [h1])
    · exact h
    · intro _; rfl
    · intro hw; exact h hw
    · intro hw; exact h hw

theorem foldl_preserves_weatherInvariant (ops : List StateOp) :
    ∀ s : AgentState, weatherInvariant s → weatherInvariant (ops.foldl applyStateOp s) := by
  induction ops with
  | nil => intro s h; exact h
  | cons op rest ih =>
    intro s h
    exact ih _ (applyStateOp_preserves_weatherInvariant s op h)

/-- C5: in every state reachable from the initial state by setters and
tool calls, `weather_checked` holds whenever the weather is known;
`set_weather` always sets the flag together with the weather; and no
operation other than `set_weather` (directly or via the weather tool)
writes the weather field. -/
theorem weather_checked_invariant_reachable (ops : List StateOp) :
    weatherInvariant (ops.foldl applyStateOp initialState) ∧
    (∀ (s : AgentState) (w : WeatherCondition),
      (s.set_weather w).weather = w ∧ (s.set_weather w).weather_checked = true) ∧
    (∀ (s : AgentState) (op : StateOp), op.isWeatherWrite = false →
      (applyStateOp s op).weather = s.weather) := by
  refine ⟨foldl_preserves_weatherInvariant ops initialState (fun hw => absurd rfl hw), ?_, ?_⟩
  · intro s w
    exact ⟨rfl, rfl⟩
  · intro s op h
    cases op with
    | addItem i => rfl
    | setWeatherOp w => simp [StateOp.isWeatherWrite] at h
    | setActivityOp a => rfl
    | toolOp c =>
      cases c with
      | lcWeather draw => simp [StateOp.isWeatherWrite] at h
      | lcWeatherExecuteDirect draw => simp [StateOp.isWeatherWrite] at h
      | skWeather draw => simp [StateOp.isWeatherWrite] at h
      | lcShopping item =>
        rcases lcShoppingRun_state item s with h1 | h1 <;>
          (show ((lcShoppingRun item s).2).weather = s.weather
           rw [h1]) <;> rfl
      | lcActivity activity =>
        rcases lcChooseActivityRun_state activity s with h1 | ⟨a, h1⟩ <;>
          (show ((lcChooseActivityRun activity s).2).weather = s.weather
           rw [h1]) <;> rfl
      | lcState => rfl
      | skShoppingCall item =>
        rcases skShopping_state item s with h1 | h1 <;>
          (show ((skShopping item s).2).weather = s.weather
           rw [h1]) <;> rfl
      | skActivityCall activity =>
        rcases skChooseActivity_state activity s with h1 | ⟨a, h1⟩ <;>
          (show ((skChooseActivity activity s).2).weather = s.weather
           rw [h1]) <;> rfl
      | skState => rfl

/-- C5 witness: after `set_weather sunny` the flag is set, and adding an
item does not write the weather field. -/
theorem weather_checked_invariant_reachable_witness :
    ([StateOp.setWeatherOp .sunny].foldl applyStateOp initialState).weather_checked = true ∧
    (applyStateOp initialState (StateOp.addItem "tv")).weather = initialState.weather :=
  ⟨(weather_checked_invariant_reachable [StateOp.setWeatherOp .sunny]).1 (by decide),
   (weather_checked_invariant_reachable []).2.2 initialState (StateOp.addItem "tv") (by decide)⟩

theorem plugin_check_tool_rules_check_weather_known (s : AgentState)
    (h1 : s.weather_checked = true) (h2 : s.weather ≠ .unknown) :
    plugin_check_tool_rules s "check_weather" =
      some "Weather has already been checked and is known. Cannot check weather again" := by
  unfold plugin_check_tool_rules check_tool_rules weatherCheckRule
  dsimp only
  rw [if_neg (by decide : ¬("check_weather" ≠ "check_weather")), if_pos (And.intro h1 h2)]
  rfl

theorem runToolCall_known_weather (c : ToolCall) (s : AgentState)
    (h1 : s.weather_checked = true) (h2 : s.weather ≠ .unknown) :
    (runToolCall c s).2.weather = s.weather ∧
    (runToolCall c s).2.weather_checked = true := by
  have hden := plugin_check_tool_rules_check_weather_known s h1 h2
  cases c with
  | lcWeather draw =>
    show (lcCheckWeatherRun draw s).2.weather = s.weather ∧
      (lcCheckWeatherRun draw s).2.weather_checked = true
    unfold lcCheckWeatherRun
    rw [hden]
    exact ⟨rfl, h1⟩
  | lcWeatherExecuteDirect draw =>
    show (lcCheckWeatherExecute draw s).2.weather = s.weather ∧
      (lcCheckWeatherExecute draw s).2.weather_checked = true
    unfold lcCheckWeatherExecute
    rw [if_pos (And.intro h1 h2)]
    exact ⟨rfl, h1⟩
  | skWeather draw =>
    show (skCheckWeather draw s).2.weather = s.weather ∧
      (skCheckWeather draw s).2.weather_checked = true
    unfold skCheckWeather
    rw [hden]
    exact ⟨rfl, h1⟩
  | lcShopping item =>
    rcases lcShoppingRun_state item s with hs | hs <;>
      (show (lcShoppingRun item s).2.weather = s.weather ∧
        (lcShoppingRun item s).2.weather_checked = true
       rw [hs]) <;> exact ⟨rfl, h1⟩
  | lcActivity activity =>
    rcases lcChooseActivityRun_state activity s with hs | ⟨a, hs⟩ <;>
      (show (lcChooseActivityRun activity s).2.weather = s.weather ∧
        (lcChooseActivityRun activity s).2.weather_checked = true
       rw [hs]) <;> exact ⟨rfl, h1⟩
  | lcState => exact ⟨rfl, h1⟩
  | skShoppingCall item =>
    rcases skShopping_state item s with hs | hs <;>
      (show (skShopping item s).2.weather = s.weather ∧
        (skShopping item s).2.weather_checked = true
       rw [hs]) <;> exact ⟨rfl, h1⟩
  | skActivityCall activity =>
    rcases skChooseActivity_state activity s with hs | ⟨a, hs⟩ <;>
      (show (skChooseActivity activity s).2.weather = s.weather ∧
        (skChooseActivity activity s).2.weather_checked = true
       rw [hs]) <;> exact ⟨rfl, h1⟩
  | skState => exact ⟨rfl, h1⟩

theorem runToolCalls_weather_stable (calls : List ToolCall) :
    ∀ s : AgentState, s.weather_checked = true → s.weather ≠ .unknown →
      (calls.foldl (fun t c => (runToolCall c t).2) s).weather = s.weather := by
  induction calls with
  | nil => intro s _ _; rfl
  | cons c rest ih =>
    intro s h1 h2
    obtain ⟨hw, hc⟩ := runToolCall_known_weather c s h1 h2
    have hstep := ih ((runToolCall c s).2) hc (by rw [hw]; exact h2)
    show (rest.foldl (fun t c => (runToolCall c t).2) ((runToolCall c s).2)).weather = s.weather
    rw [hstep, hw]

/-- C9: once the weather is known and checked, the weather tool body —
even called directly, bypassing the rule gate — returns the already
known weather without drawing a new value or calling `set_weather`, and
no sequence of tool calls ever changes the weather field again. -/
theorem weather_randomized_at_most_once (draw : WeatherCondition) (s : AgentState)
    (calls : List ToolCall) (h1 : s.weather_checked = true) (h2 : s.weather ≠ .unknown) :
    lcCheckWeatherExecute draw s = (.success (weatherAlreadyCheckedMsg s), s) ∧
    (calls.foldl (fun t c => (runToolCall c t).2) s).weather = s.weather := by
  refine ⟨?_, runToolCalls_weather_stable calls s h1 h2⟩
  unfold lcCheckWeatherExecute
  rw [if_pos (And.intro h1 h2)]

/-- C9 witness: with sunny checked weather, a direct body call with a
fresh draw changes nothing, and a subsequent weather call plus a
purchase leave the weather sunny. -/
theorem weather_randomized_at_most_once_witness :
    lcCheckWeatherExecute .raining (initialState.set_weather .sunny) =
      (.success (weatherAlreadyCheckedMsg (initialState.set_weather .sunny)),
        initialState.set_weather .sunny) ∧
    ([ToolCall.skWeather .snowing, ToolCall.skShoppingCall "tv"].foldl
      (fun t c => (runToolCall c t).2) (initialState.set_weather .sunny)).weather =
      (initialState.set_weather .sunny).weather :=
  weather_randomized_at_most_once .raining (initialState.set_weather .sunny)
    [ToolCall.skWeather .snowing, ToolCall.skShoppingCall "tv"] rfl (by decide)

/-! ## Parser and loop lemmas -/

theorem take_of_strStartsWith {s p : String} (h : strStartsWith s p = true) :
    s.data.take p.data.length = p.data := by
  simpa [strStartsWith] using h

theorem actionInput_not_thought {s : String}
    (h : strStartsWith s "Action Input:" = true) :
    strStartsWith s "Thought:" = false := by
  have h13 : s.data.take 13 = "Action Input:".data := take_of_strStartsWith h
  have ht : s.data.take 8 = (s.data.take 13).take 8 := by
    rw [List.take_take]
    norm_num
  rw [h13] at ht
  show (s.data.take 8 == "Thought:".data) = false
  rw [ht]
  decide

theorem actionInput_not_action {s : String}
    (h : strStartsWith s "Action Input:" = true) :
    strStartsWith s "Action:" = false := by
  have h13 : s.data.take 13 = "Action Input:".data := take_of_strStartsWith h
  have ht : s.data.take 7 = (s.data.take 13).take 7 := by
    rw [List.take_take]
    norm_num
  rw [h13] at ht
  show (s.data.take 7 == "Action:".data) = false
  rw [ht]
  decide

theorem parseResponseLines_no_final (jsonParse : String → Option JsonVal)
    (lines : List String) (it : Iteration)
    (h : ∀ l ∈ lines, strStartsWith (strTrim l) "Final Answer:" = false) :
    (parseResponseLines jsonParse lines it).2 = none := by
  induction lines generalizing it with
  | nil => rfl
  | cons line rest ih =>
    have hline := h line (List.mem_cons_self line rest)
    have hrest : ∀ l ∈ rest, strStartsWith (strTrim l) "Final Answer:" = false :=
      fun l hl => h l (List.mem_cons_of_mem line hl)
    unfold parseResponseLines
    dsimp only
    split_ifs with h1 h2 h3 h4
    · exact ih _ hrest
    · exact ih _ hrest
    · exact ih _ hrest
    · simp [hline] at h4
    · exact ih _ hrest

theorem runReact_no_final (client : Nat → String) (jsonParse : String → Option JsonVal)
    (randw : Nat → WeatherCondition)
    (h : ∀ n, noFinalAnswerLine (client n)) :
    ∀ (fuel : Nat) (st : LoopState),
      (runReact client jsonParse randw fuel st).1 = .maxIterationsExceeded ∧
      (runReact client jsonParse randw fuel st).2.turns = st.turns + fuel := by
  intro fuel
  induction fuel with
  | zero => intro st; exact ⟨rfl, rfl⟩
  | succ fuel ih =>
    intro st
    have hp : (parse_response jsonParse (client st.turns) st.current).2 = none :=
      parseResponseLines_no_final jsonParse (strLines (client st.turns)) st.current (h st.turns)
    unfold runReact
    dsimp only
    rw [hp]
    dsimp only
    split_ifs with ha
    · refine ⟨(ih _).1, ?_⟩
      rw [(ih _).2]
      show st.turns + 1 + fuel = st.turns + (fuel + 1)
      omega
    · refine ⟨(ih _).1, ?_⟩
      rw [(ih _).2]
      show st.turns + 1 + fuel = st.turns + (fuel + 1)
      omega

/-! ## Claim theorems: ReAct loop and parser -/

/-- C7: a completion client that never emits a line starting with
`Final Answer:` drives exactly `maxIterations` reasoning turns (never
more) and terminates with the max-iterations outcome, an outcome
distinct from every successful final answer. -/
theorem react_without_final_answer_hits_cap (client : Nat → String)
    (jsonParse : String → Option JsonVal) (randw : Nat → WeatherCondition)
    (maxIter : Nat) (question : String) (world0 : AgentState)
    (h : ∀ n, noFinalAnswerLine (client n)) :
    (runAgent client jsonParse randw maxIter question world0).1 = .maxIterationsExceeded ∧
    (runAgent client jsonParse randw maxIter question world0).2.turns = maxIter ∧
    ∀ t, Outcome.maxIterationsExceeded ≠ Outcome.finalAnswer t := by
  obtain ⟨h1, h2⟩ := runReact_no_final client jsonParse randw h maxIter
    { history := [⟨"user", "Question: " ++ question⟩]
      world := world0
      current := {}
      turns := 0 }
  exact ⟨h1, by simpa using h2, fun t ht => Outcome.noConfusion ht⟩

/-- C7 witness: a client that always answers with a bare thought makes
a 2-iteration run stop as max-iterations-exceeded after exactly 2
turns. -/
theorem react_without_final_answer_hits_cap_witness :
    (runAgent (fun _ => "Thought: still thinking") (fun _ => none) (fun _ => .sunny)
      2 "hello" initialState).1 = .maxIterationsExceeded ∧
    (runAgent (fun _ => "Thought: still thinking") (fun _ => none) (fun _ => .sunny)
      2 "hello" initialState).2.turns = 2 := by
  have hc : noFinalAnswerLine "Thought: still thinking" := by
    unfold noFinalAnswerLine
    decide
  have h := react_without_final_answer_hits_cap (fun _ => "Thought: still thinking")
    (fun _ => none) (fun _ => .sunny) 2 "hello" initialState (fun _ => hc)
  exact ⟨h.1, h.2.1⟩

/-- C8: an `Action Input:` line whose content is non-empty and not
parseable as JSON makes the parser store the raw text wrapped under the
single synthetic "input" key instead of raising; empty content yields
the empty parameter object; the parse always returns normally (with no
final answer) rather than aborting the turn. -/
theorem action_input_parse_degradation (jsonParse : String → Option JsonVal)
    (line : String) (it : Iteration)
    (h : strStartsWith (strTrim line) "Action Input:" = true) :
    (parseResponseLines jsonParse [line] it =
      ({ it with action_input :=
          parseActionInputValue jsonParse (strTrim (strDrop (strTrim line) 13)) }, none)) ∧
    (∀ raw : String, raw ≠ "" → jsonParse raw = none →
      parseActionInputValue jsonParse raw = .obj [("input", .str raw)]) ∧
    parseActionInputValue jsonParse "" = .obj [] := by
  refine ⟨?_, ?_, rfl⟩
  · unfold parseResponseLines
    dsimp only
    rw [actionInput_not_thought h, actionInput_not_action h, h]
    simp only [Bool.false_eq_true, if_false, if_true]
    rfl
  · intro raw hr hj
    unfold parseActionInputValue
    rw [if_neg hr, hj]

/-- C8 witness: the line `Action Input: not json` with a failing JSON
parse yields the wrapped raw text and no final answer, and empty content
yields the empty object. -/
theorem action_input_parse_degradation_witness :
    parseResponseLines (fun _ => none) ["Action Input: not json"] {} =
      ({ action_input := JsonVal.obj [("input", JsonVal.str "not json")] }, none) ∧
    parseActionInputValue (fun _ => none) "" = JsonVal.obj [] := by
  have h := action_input_parse_degradation (fun _ => none) "Action Input: not json" {}
    (by decide)
  refine ⟨?_, h.2.2⟩
  rw [h.1]
  rfl

end PolicyEnforcer
